import Mathlib

/-!
Verification of the SiteAudit capture / persist / export workflow.

The definitions below are a shallow embedding of the TypeScript source:
the React component state and handlers of src/app/audit/page.tsx, and the
IndexedDB-backed variants of the same page (src/unnamed/part_003 and
src/unnamed/part_004).  Machine state is explicit: each handler becomes a
pure function from state (and, where it touches storage, from a store
model) to new state.
-/

namespace SiteAudit

/-- An encoded still image (a data URL): pixel dimensions of the encoded
bitmap plus the opaque encoded payload. -/
structure Raster where
  width : Nat
  height : Nat
  bytes : String
deriving DecidableEq, Repr

/-- One captured image, mirroring the CapturedImage interface of page.tsx:
dataUrl, title, annotation (field name shortened to annot), and the optional
originalDataUrl snapshot. -/
structure CapturedImage where
  dataUrl : Raster
  title : String
  annot : Option Raster
  originalDataUrl : Option Raster
deriving DecidableEq, Repr

/-- The React component state of AuditPage relevant to the claims. -/
structure AuditState where
  capturedImages : List CapturedImage
  currentTitle : String
  userName : String
  currentDate : String
  signature : Option Raster
  isDrawing : Bool
  showPdfForm : Bool
  currentImageIndex : Option Nat
deriving DecidableEq, Repr

/-- The simple storage tier (localStorage) restricted to the four logical
keys used by the audit page: siteaudit_captured_images, siteaudit_user_name,
siteaudit_signature, siteaudit_report_started.  A field is none when the key
is absent.  Values are modelled post-JSON-parse. -/
structure LocalStore where
  capturedImagesKey : Option (List CapturedImage)
  userNameKey : Option String
  signatureKey : Option Raster
  reportStartedKey : Option Bool
deriving DecidableEq, Repr

/-- The transactional storage tier: the settings object store of the
SiteAuditDB IndexedDB database (src/unnamed/part_003).  An outer none means
no record exists under the key; for the signature record the inner Option
reflects that the code writes a record whose data field is null when
clearing. -/
structure IdbSettings where
  capturedImages : Option (List CapturedImage)
  userName : Option String
  signature : Option (Option Raster)
  reportStarted : Option Bool
deriving DecidableEq, Repr

/-- Both storage tiers together, as seen by the IndexedDB variant of the
page (transactional tier preferred, localStorage as fallback). -/
structure TwoTierStore where
  idb : IdbSettings
  ls : LocalStore
deriving DecidableEq, Repr

/-- Storage effect of startNewReport in src/unnamed/part_003 (lines
1153-1200), on the confirmed path with the database initialized: the code
calls localStorage.removeItem for the captured-images and signature keys
only, and writes the IndexedDB records capturedImages with data [] and
signature with data null.  The user-name and report-started records are not
touched here. -/
def startNewReportStore (t : TwoTierStore) : TwoTierStore :=
  { idb := { t.idb with capturedImages := some [], signature := some none }
    ls := { t.ls with capturedImagesKey := none, signatureKey := none } }

/-- The save effect that runs after setReportStarted (src/unnamed/part_003
lines 304-326, transactional path): it persists the current reportStarted
flag.  startNewReport sets the flag to true, so this runs with b = true
right after a new report starts. -/
def persistReportStarted (t : TwoTierStore) (b : Bool) : TwoTierStore :=
  { t with idb := { t.idb with reportStarted := some b } }

/-- Read of the inspector-name key as performed by the load effect
(src/unnamed/part_003 lines 169-172, error-free transactional path): the
loaded value is used only when the record exists and its data is truthy, so
an empty string reads as absent. -/
def readUserName (t : TwoTierStore) : Option String :=
  match t.idb.userName with
  | some s => if s = "" then none else some s
  | none => none

/-- Read of the signature key (load effect lines 175-179): a record whose
data is null is treated as absent. -/
def readSignature (t : TwoTierStore) : Option Raster :=
  match t.idb.signature with
  | some (some r) => some r
  | some none => none
  | none => none

/-- Read of the captured-images key (load effect lines 163-167).  A record
holding the empty list is truthy in the source, so it is returned as a
present empty list, not as absent. -/
def readCapturedImages (t : TwoTierStore) : Option (List CapturedImage) :=
  t.idb.capturedImages

/-- Read of the report-started key (load effect lines 181-185): the flag is
taken as set only when the stored data is exactly true. -/
def readReportStarted (t : TwoTierStore) : Option Bool :=
  match t.idb.reportStarted with
  | some true => some true
  | some false => none
  | none => none

/-- A store in which every logical key currently holds a value: used as the
concrete pre-state for the C1 counterexample. -/
def demoFullStore : TwoTierStore :=
  { idb := { capturedImages := some []
             userName := some "Alice"
             signature := some none
             reportStarted := some true }
    ls := { capturedImagesKey := none
            userNameKey := some "Alice"
            signatureKey := none
            reportStartedKey := some true } }

/-- Claim C1, counterexample: after a confirmed startNewReport the
inspector-name key still reads its old value ("Alice"), so it is false that
every subsequent read of the four logical keys returns absent. -/
theorem startNewReport_leaves_userName :
    readUserName (startNewReportStore demoFullStore) = some "Alice"
    ∧ readUserName (startNewReportStore demoFullStore) ≠ none := by
  exact ⟨rfl, by decide⟩

/-- Claim C1, amended: a confirmed startNewReport clears only the
captured-images and signature keys (the signature then reads absent and the
captured-images record holds the empty list); the inspector-name key keeps
whatever value it had, and the report-started persist that follows stores
true, so that key reads as set. -/
theorem startNewReport_store_effect (t : TwoTierStore) :
    readSignature (startNewReportStore t) = none
    ∧ readCapturedImages (startNewReportStore t) = some []
    ∧ readUserName (startNewReportStore t) = readUserName t
    ∧ readReportStarted (persistReportStarted (startNewReportStore t) true) = some true := by
  refine ⟨rfl, rfl, rfl, rfl⟩

/-! ### Persistence effects of the localStorage variant (claim C9)

src/app/audit/page.tsx lines 60-85: each of the three save effects is
guarded so that nothing is written when the in-memory value is empty; there
is no removal of a key outside startNewReport. -/

/-- One run of the three save effects of page.tsx (lines 60-85): the
captured-images key is written only when the list is non-empty, the
inspector-name key only when the name is a non-empty string, the signature
key only when a signature is set; otherwise each key keeps its stored value.
The report-started key is not written by this variant. -/
def persistStep (s : AuditState) (store : LocalStore) : LocalStore :=
  { capturedImagesKey :=
      if s.capturedImages.length > 0 then some s.capturedImages
      else store.capturedImagesKey
    userNameKey :=
      if s.userName = "" then store.userNameKey else some s.userName
    signatureKey :=
      match s.signature with
      | some sig => some sig
      | none => store.signatureKey
    reportStartedKey := store.reportStartedKey }

/-- The load effect of page.tsx (lines 34-57): each state field is set from
its key only when a stored value is present; otherwise the field keeps its
initial value. -/
def loadStep (store : LocalStore) (s : AuditState) : AuditState :=
  { s with
    capturedImages :=
      match store.capturedImagesKey with
      | some l => l
      | none => s.capturedImages
    userName :=
      match store.userNameKey with
      | some n => n
      | none => s.userName
    signature :=
      match store.signatureKey with
      | some r => some r
      | none => s.signature }

/-- Claim C9: the persistence effects never write an empty value.  With an
empty list the captured-images key is untouched, with an empty name the
inspector-name key is untouched, with no signature the signature key is
untouched (and conversely non-empty values are written); consequently when
the in-memory session has been emptied while the store still holds old
non-empty values, a reload restores those stale values into the state. -/
theorem persist_no_empty_writes (s : AuditState) (store : LocalStore) :
    (s.capturedImages = [] →
      (persistStep s store).capturedImagesKey = store.capturedImagesKey)
    ∧ (s.capturedImages ≠ [] →
      (persistStep s store).capturedImagesKey = some s.capturedImages)
    ∧ (s.userName = "" →
      (persistStep s store).userNameKey = store.userNameKey)
    ∧ (s.userName ≠ "" →
      (persistStep s store).userNameKey = some s.userName)
    ∧ (s.signature = none →
      (persistStep s store).signatureKey = store.signatureKey)
    ∧ (∀ sig, s.signature = some sig →
      (persistStep s store).signatureKey = some sig)
    ∧ (∀ imgs name r s0,
        s.capturedImages = [] → s.userName = "" → s.signature = none →
        store.capturedImagesKey = some imgs →
        store.userNameKey = some name →
        store.signatureKey = some r →
        (loadStep (persistStep s store) s0).capturedImages = imgs
        ∧ (loadStep (persistStep s store) s0).userName = name
        ∧ (loadStep (persistStep s store) s0).signature = some r) := by
  refine ⟨?_, ?_, ?_, ?_, ?_, ?_, ?_⟩
  · intro h; simp [persistStep, h]
  · intro h; simp [persistStep, h]
  · intro h; simp [persistStep, h]
  · intro h; simp [persistStep, h]
  · intro h; simp [persistStep, h]
  · intro sig h; simp [persistStep, h]
  · intro imgs name r s0 h1 h2 h3 h4 h5 h6
    refine ⟨?_, ?_, ?_⟩ <;> simp [loadStep, persistStep, h1, h2, h3, h4, h5, h6]

/-- A session state with everything emptied in memory, for the C9 witness. -/
def demoEmptyState : AuditState :=
  { capturedImages := []
    currentTitle := ""
    userName := ""
    currentDate := ""
    signature := none
    isDrawing := false
    showPdfForm := false
    currentImageIndex := none }

/-- A small raster used as concrete data in witnesses. -/
def demoRaster : Raster := { width := 4, height := 4, bytes := "png-demo" }

/-- A localStorage tier still holding stale non-empty values. -/
def demoStaleStore : LocalStore :=
  { capturedImagesKey := some [{ dataUrl := demoRaster
                                 title := "Old image"
                                 annot := none
                                 originalDataUrl := none }]
    userNameKey := some "Alice"
    signatureKey := some demoRaster
    reportStartedKey := none }

/-- Claim C9, witness: with the emptied session and the stale store, the
save effects leave the stale inspector name in place and a reload restores
it. -/
theorem persist_no_empty_writes_witness :
    (persistStep demoEmptyState demoStaleStore).userNameKey = some "Alice"
    ∧ (loadStep (persistStep demoEmptyState demoStaleStore) demoEmptyState).userName
        = "Alice" := by
  refine ⟨(persist_no_empty_writes demoEmptyState demoStaleStore).2.2.1 rfl, ?_⟩
  have h := ((persist_no_empty_writes demoEmptyState demoStaleStore).2.2.2.2.2.2
    _ _ demoRaster demoEmptyState rfl rfl rfl rfl rfl rfl)
  exact h.2.1

/-! ### Two-tier save fallback (claim C7)

src/unnamed/part_003: every save effect first tries saveToIndexedDB and on
failure retries localStorage.setItem.  Only the captured-images effect
(lines 226-251) raises a user-facing alert when both tiers fail; the
user-name (254-276), signature (279-301) and report-started (304-326)
effects merely log the double failure to the console. -/

/-- How one persisted write ended: which tier took it, or how its failure
was reported. -/
inductive SaveOutcome where
  | savedTransactional
  | savedSimple
  | failedWithWarning
  | failedSilent
deriving DecidableEq, Repr

/-- The captured-images save effect of src/unnamed/part_003 (lines
226-251), parameterized by whether each tier accepts the write: IndexedDB
first, localStorage on failure, and an alert (storage-limit warning) when
both fail.  The in-memory state is returned untouched in every case, and a
tier that fails keeps its old contents. -/
def saveImagesWrite (s : AuditState) (t : TwoTierStore) (idbOk lsOk : Bool) :
    AuditState × TwoTierStore × SaveOutcome :=
  if idbOk then
    (s, { t with idb := { t.idb with capturedImages := some s.capturedImages } },
      SaveOutcome.savedTransactional)
  else if lsOk then
    (s, { t with ls := { t.ls with capturedImagesKey := some s.capturedImages } },
      SaveOutcome.savedSimple)
  else
    (s, t, SaveOutcome.failedWithWarning)

/-- The user-name save effect (lines 254-276): same tier fallback, but a
double failure is only logged, never surfaced to the user. -/
def saveUserNameWrite (s : AuditState) (t : TwoTierStore) (idbOk lsOk : Bool) :
    AuditState × TwoTierStore × SaveOutcome :=
  if idbOk then
    (s, { t with idb := { t.idb with userName := some s.userName } },
      SaveOutcome.savedTransactional)
  else if lsOk then
    (s, { t with ls := { t.ls with userNameKey := some s.userName } },
      SaveOutcome.savedSimple)
  else
    (s, t, SaveOutcome.failedSilent)

/-- The signature save effect (lines 279-301): tier fallback with a silent
double failure, writing the current signature raster. -/
def saveSignatureWrite (s : AuditState) (t : TwoTierStore) (idbOk lsOk : Bool) :
    AuditState × TwoTierStore × SaveOutcome :=
  if idbOk then
    (s, { t with idb := { t.idb with signature := some s.signature } },
      SaveOutcome.savedTransactional)
  else if lsOk then
    (s, { t with ls := { t.ls with signatureKey := s.signature } },
      SaveOutcome.savedSimple)
  else
    (s, t, SaveOutcome.failedSilent)

/-- The report-started save effect (lines 304-326): tier fallback writing
the current reportStarted flag (as a boolean record in IndexedDB, as its
string form in localStorage), with a silent double failure.  Unlike the
other three effects it runs without a non-empty guard. -/
def saveReportStartedWrite (s : AuditState) (flag : Bool) (t : TwoTierStore)
    (idbOk lsOk : Bool) : AuditState × TwoTierStore × SaveOutcome :=
  if idbOk then
    (s, { t with idb := { t.idb with reportStarted := some flag } },
      SaveOutcome.savedTransactional)
  else if lsOk then
    (s, { t with ls := { t.ls with reportStartedKey := some flag } },
      SaveOutcome.savedSimple)
  else
    (s, t, SaveOutcome.failedSilent)

/-- A populated in-memory session used as concrete input in counterexamples
and witnesses. -/
def demoSessionState : AuditState :=
  { capturedImages := [{ dataUrl := demoRaster
                         title := "Crack on floor"
                         annot := none
                         originalDataUrl := none }]
    currentTitle := ""
    userName := "Alice"
    currentDate := "2026-10-11"
    signature := some demoRaster
    isDrawing := false
    showPdfForm := true
    currentImageIndex := none }

/-- Claim C7, counterexample: when both tiers fail, the user-name write
ends silently (console only), not with the storage-exhaustion warning the
claim asserts for every persisted write. -/
theorem saveUserName_double_failure_silent :
    (saveUserNameWrite demoSessionState demoFullStore false false).2.2
      = SaveOutcome.failedSilent
    ∧ (saveUserNameWrite demoSessionState demoFullStore false false).2.2
      ≠ SaveOutcome.failedWithWarning := by
  exact ⟨rfl, by decide⟩

/-- Claim C7, amended: every persisted write (captured images, inspector
name, signature, report-started flag) is retried against the simple tier
when the transactional tier fails, and the in-memory session is left intact
in every case; when both tiers fail, the captured-images write surfaces a
storage-exhaustion warning, while the user-name, signature and
report-started writes fail silently (console log only). -/
theorem save_write_fallback (s : AuditState) (flag : Bool) (t : TwoTierStore) :
    ((saveImagesWrite s t false true).2.2 = SaveOutcome.savedSimple
      ∧ (saveUserNameWrite s t false true).2.2 = SaveOutcome.savedSimple
      ∧ (saveSignatureWrite s t false true).2.2 = SaveOutcome.savedSimple
      ∧ (saveReportStartedWrite s flag t false true).2.2 = SaveOutcome.savedSimple)
    ∧ ((saveImagesWrite s t false true).2.1.ls.capturedImagesKey
        = some s.capturedImages
      ∧ (saveUserNameWrite s t false true).2.1.ls.userNameKey = some s.userName
      ∧ (saveSignatureWrite s t false true).2.1.ls.signatureKey = s.signature
      ∧ (saveReportStartedWrite s flag t false true).2.1.ls.reportStartedKey
        = some flag)
    ∧ ((saveImagesWrite s t false false).2.2 = SaveOutcome.failedWithWarning
      ∧ (saveUserNameWrite s t false false).2.2 = SaveOutcome.failedSilent
      ∧ (saveSignatureWrite s t false false).2.2 = SaveOutcome.failedSilent
      ∧ (saveReportStartedWrite s flag t false false).2.2 = SaveOutcome.failedSilent)
    ∧ (∀ idbOk lsOk,
        (saveImagesWrite s t idbOk lsOk).1 = s
        ∧ (saveUserNameWrite s t idbOk lsOk).1 = s
        ∧ (saveSignatureWrite s t idbOk lsOk).1 = s
        ∧ (saveReportStartedWrite s flag t idbOk lsOk).1 = s)
    ∧ ((saveImagesWrite s t false false).2.1 = t
      ∧ (saveReportStartedWrite s flag t false false).2.1 = t) := by
  refine ⟨⟨rfl, rfl, rfl, rfl⟩, ⟨rfl, rfl, rfl, rfl⟩, ⟨rfl, rfl, rfl, rfl⟩,
    ?_, rfl, rfl⟩
  intro idbOk lsOk
  cases idbOk <;> cases lsOk <;>
    exact ⟨rfl, rfl, rfl, rfl⟩

/-! ### Frame capture (claims C3 and C6)

captureImage in src/app/audit/page.tsx lines 296-326: with a non-empty
title it sizes the hidden canvas to a square of side min(videoWidth,
videoHeight) and draws the video frame from the centered source rectangle;
with an empty title it only alerts.  There is no check that the video has
produced a non-zero-dimension frame. -/

/-- The drawImage call issued by captureImage: destination canvas size and
the source rectangle read from the video frame.  Offsets are exact rational
values, as in the source where (videoWidth - size) / 2 may be fractional. -/
structure CaptureGeometry where
  canvasWidth : Nat
  canvasHeight : Nat
  srcX : ℚ
  srcY : ℚ
  srcW : Nat
  srcH : Nat
deriving DecidableEq, Repr

/-- The crop computation of captureImage (page.tsx lines 303-317): square
side min(videoWidth, videoHeight), source offset ((videoWidth - size) / 2,
(videoHeight - size) / 2). -/
def captureGeometry (videoWidth videoHeight : Nat) : CaptureGeometry :=
  let size := min videoWidth videoHeight
  { canvasWidth := size
    canvasHeight := size
    srcX := ((videoWidth : ℚ) - (size : ℚ)) / 2
    srcY := ((videoHeight : ℚ) - (size : ℚ)) / 2
    srcW := size
    srcH := size }

/-- State effect of captureImage (page.tsx lines 296-326): when the current
title is empty only an alert fires; otherwise the centered square crop of
the frame is encoded (payload abstracted as frameBytes) and appended to the
captured list with the current title, which is then reset. -/
def captureImage (s : AuditState) (videoWidth videoHeight : Nat)
    (frameBytes : String) : AuditState :=
  if s.currentTitle = "" then s
  else
    let g := captureGeometry videoWidth videoHeight
    let raster : Raster :=
      { width := g.canvasWidth, height := g.canvasHeight, bytes := frameBytes }
    { s with
      capturedImages := s.capturedImages ++
        [{ dataUrl := raster
           title := s.currentTitle
           annot := none
           originalDataUrl := none }]
      currentTitle := "" }

/-- A fresh session whose only non-default field is a non-empty current
title, so that captureImage proceeds. -/
def demoEmptyCapState : AuditState :=
  { capturedImages := []
    currentTitle := "Crack on floor"
    userName := ""
    currentDate := ""
    signature := none
    isDrawing := false
    showPdfForm := false
    currentImageIndex := none }

/-- Claim C3: every captured raster is a square of side min(videoWidth,
videoHeight) read from the centered source offset; equivalently the center
of the source rectangle is the center of the frame.  The raster appended to
the list carries exactly those canvas dimensions. -/
theorem captureImage_centered_square (s : AuditState)
    (videoWidth videoHeight : Nat) (frameBytes : String)
    (htitle : s.currentTitle ≠ "") :
    (captureGeometry videoWidth videoHeight).canvasWidth
      = (captureGeometry videoWidth videoHeight).canvasHeight
    ∧ (captureGeometry videoWidth videoHeight).canvasWidth
      = min videoWidth videoHeight
    ∧ (captureGeometry videoWidth videoHeight).srcX
      = ((videoWidth : ℚ) - ((min videoWidth videoHeight : Nat) : ℚ)) / 2
    ∧ (captureGeometry videoWidth videoHeight).srcY
      = ((videoHeight : ℚ) - ((min videoWidth videoHeight : Nat) : ℚ)) / 2
    ∧ (captureGeometry videoWidth videoHeight).srcX
        + ((captureGeometry videoWidth videoHeight).srcW : ℚ) / 2
      = (videoWidth : ℚ) / 2
    ∧ (captureGeometry videoWidth videoHeight).srcY
        + ((captureGeometry videoWidth videoHeight).srcH : ℚ) / 2
      = (videoHeight : ℚ) / 2
    ∧ ((captureImage s videoWidth videoHeight frameBytes).capturedImages.map
          (fun img => (img.dataUrl.width, img.dataUrl.height)))
      = (s.capturedImages.map (fun img => (img.dataUrl.width, img.dataUrl.height)))
          ++ [(min videoWidth videoHeight, min videoWidth videoHeight)] := by
  refine ⟨rfl, rfl, rfl, rfl, ?_, ?_, ?_⟩
  · simp only [captureGeometry]
    ring
  · simp only [captureGeometry]
    ring
  · simp [captureImage, htitle, captureGeometry]

/-- Claim C3, witness: a 640 x 480 frame captured with a non-empty title
yields a 480 x 480 raster read from source offset (80, 0). -/
theorem captureImage_centered_square_witness :
    (captureGeometry 640 480).srcX = (80 : ℚ)
    ∧ ((captureImage demoEmptyCapState 640 480 "frame").capturedImages.map
        (fun img => (img.dataUrl.width, img.dataUrl.height))) = [(480, 480)] := by
  have h := captureImage_centered_square demoEmptyCapState 640 480 "frame"
    (by decide)
  refine ⟨?_, ?_⟩
  · have hx := h.2.2.1
    rw [hx]
    norm_num
  · have hl := h.2.2.2.2.2.2
    simpa [demoEmptyCapState] using hl

/-- Claim C6: the code does not reject a zero-dimension frame.  Evaluated at
videoWidth = videoHeight = 0 with a non-empty title, captureImage appends a
degenerate 0 x 0 raster to the captured-images list instead of rejecting the
capture. -/
theorem captureImage_zero_frame_appends :
    (captureImage demoEmptyCapState 0 0 "frame").capturedImages.length = 1
    ∧ ((captureImage demoEmptyCapState 0 0 "frame").capturedImages.map
        (fun img => (img.dataUrl.width, img.dataUrl.height))) = [(0, 0)] := by
  exact ⟨rfl, rfl⟩

/-! ### In-place list update helper

The handlers copy the captured list and mutate one element
(updatedImages[index].field = v).  updateAt embeds that pattern: apply f to
the element at the given index, leave everything else alone.  An index past
the end leaves the list unchanged (the handlers are only invoked with
indices of rendered items). -/

/-- Apply f to the element at position i, if any. -/
def updateAt (i : Nat) (f : CapturedImage → CapturedImage) :
    List CapturedImage → List CapturedImage
  | [] => []
  | x :: xs =>
    match i with
    | 0 => f x :: xs
    | n + 1 => x :: updateAt n f xs

theorem updateAt_length (i : Nat) (f : CapturedImage → CapturedImage) :
    ∀ l : List CapturedImage, (updateAt i f l).length = l.length := by
  induction i with
  | zero =>
    intro l; cases l <;> simp [updateAt]
  | succ n ih =>
    intro l
    cases l with
    | nil => simp [updateAt]
    | cons x xs => simp [updateAt, ih xs]

theorem updateAt_get_self (f : CapturedImage → CapturedImage) :
    ∀ (i : Nat) (l : List CapturedImage),
      (updateAt i f l)[i]? = (l[i]?).map f := by
  intro i
  induction i with
  | zero =>
    intro l; cases l <;> simp [updateAt]
  | succ n ih =>
    intro l
    cases l with
    | nil => simp [updateAt]
    | cons x xs => simpa [updateAt] using ih xs

theorem updateAt_get_other (f : CapturedImage → CapturedImage) :
    ∀ (i j : Nat) (l : List CapturedImage), j ≠ i →
      (updateAt i f l)[j]? = l[j]? := by
  intro i
  induction i with
  | zero =>
    intro j l hj
    cases l with
    | nil => simp [updateAt]
    | cons x xs =>
      cases j with
      | zero => exact absurd rfl hj
      | succ m => simp [updateAt]
  | succ n ih =>
    intro j l hj
    cases l with
    | nil => simp [updateAt]
    | cons x xs =>
      cases j with
      | zero => simp [updateAt]
      | succ m =>
        have := ih m xs (by omega)
        simpa [updateAt] using this

/-! ### Annotation round trip (claim C5)

src/app/audit/page.tsx: selectImageForAnnotation (lines 629-690) records the
current raster into originalDataUrl only when that field is still unset
(first-write-wins) and targets the image; stopDrawing (lines 401-420)
flattens the canvas into dataUrl; clearAnnotation (lines 522-569) restores
dataUrl from originalDataUrl when present. -/

/-- selectImageForAnnotation (page.tsx lines 629-690): set the annotation
target and snapshot the current raster into originalDataUrl unless a
snapshot already exists. -/
def selectImageForAnnot (s : AuditState) (index : Nat) : AuditState :=
  { s with
    currentImageIndex := some index
    capturedImages :=
      updateAt index
        (fun img =>
          match img.originalDataUrl with
          | none => { img with originalDataUrl := some img.dataUrl }
          | some _ => img)
        s.capturedImages }

/-- startDrawing (page.tsx lines 329-361): with an annotation target the
drawing flag is raised (path/coordinate bookkeeping happens on the canvas). -/
def startDrawing (s : AuditState) : AuditState :=
  match s.currentImageIndex with
  | some _ => { s with isDrawing := true }
  | none => s

/-- stopDrawing (page.tsx lines 401-420): when a stroke is in progress on a
targeted image, the canvas content (base image plus strokes, passed here as
combined) becomes the image's new dataUrl and the drawing flag drops. -/
def stopDrawing (s : AuditState) (combined : Raster) : AuditState :=
  match s.currentImageIndex with
  | some index =>
    if s.isDrawing then
      { s with
        isDrawing := false
        capturedImages :=
          updateAt index (fun img => { img with dataUrl := combined })
            s.capturedImages }
    else s
  | none => s

/-- clearAnnotation (page.tsx lines 522-569), embedded as clearAnnot: when
the targeted image has an originalDataUrl snapshot, dataUrl is restored from
it; otherwise only the canvas is redrawn and the list is unchanged. -/
def clearAnnot (s : AuditState) : AuditState :=
  match s.currentImageIndex with
  | some index =>
    { s with
      capturedImages :=
        updateAt index
          (fun img =>
            match img.originalDataUrl with
            | some orig => { img with dataUrl := orig }
            | none => img)
          s.capturedImages }
  | none => s

/-- Claim C5: selecting an image with no snapshot yet, flattening a stroke
into it, and clearing the annotation restores a dataUrl bit-identical to the
raster before annotation began; the snapshot is exactly that original raster
and survives a further select (first-write-wins). -/
theorem annot_clear_roundtrip (s : AuditState) (i : Nat) (combined : Raster)
    (img0 : CapturedImage)
    (hget : s.capturedImages[i]? = some img0)
    (horig : img0.originalDataUrl = none) :
    ((clearAnnot (stopDrawing (startDrawing (selectImageForAnnot s i))
        combined)).capturedImages[i]?).map CapturedImage.dataUrl
      = some img0.dataUrl
    ∧ ((stopDrawing (startDrawing (selectImageForAnnot s i))
        combined).capturedImages[i]?).map CapturedImage.dataUrl
      = some combined
    ∧ (((selectImageForAnnot (stopDrawing (startDrawing (selectImageForAnnot s i))
        combined) i)).capturedImages[i]?).map CapturedImage.originalDataUrl
      = some (some img0.dataUrl) := by
  have h1 : (selectImageForAnnot s i).capturedImages[i]?
      = some { img0 with originalDataUrl := some img0.dataUrl } := by
    simp [selectImageForAnnot, updateAt_get_self, hget, horig]
  have hcur : (selectImageForAnnot s i).currentImageIndex = some i := rfl
  have h2 : (stopDrawing (startDrawing (selectImageForAnnot s i)) combined).capturedImages[i]?
      = some { img0 with originalDataUrl := some img0.dataUrl, dataUrl := combined } := by
    simp [startDrawing, stopDrawing, hcur, selectImageForAnnot, updateAt_get_self, hget, horig]
  refine ⟨?_, ?_, ?_⟩
  · have h3 : (clearAnnot (stopDrawing (startDrawing (selectImageForAnnot s i))
        combined)).capturedImages[i]?
        = some { img0 with dataUrl := img0.dataUrl, originalDataUrl := some img0.dataUrl } := by
      have hcur2 : (stopDrawing (startDrawing (selectImageForAnnot s i))
          combined).currentImageIndex = some i := by
        simp [startDrawing, stopDrawing, hcur]
      simp [clearAnnot, hcur2, updateAt_get_self, h2]
    simp [h3]
  · simp [h2]
  · have h4 : (selectImageForAnnot (stopDrawing (startDrawing (selectImageForAnnot s i))
        combined) i).capturedImages[i]?
        = (((stopDrawing (startDrawing (selectImageForAnnot s i))
            combined).capturedImages[i]?).map
          (fun img =>
            match img.originalDataUrl with
            | none => { img with originalDataUrl := some img.dataUrl }
            | some _ => img)) :=
      updateAt_get_self _ i _
    rw [h4, h2]
    rfl

/-- Claim C5, witness: on a one-image session, annotate then clear restores
the original raster and the snapshot holds it. -/
theorem annot_clear_roundtrip_witness :
    ((clearAnnot (stopDrawing (startDrawing (selectImageForAnnot demoSessionState 0))
        { width := 4, height := 4, bytes := "combined" })).capturedImages[0]?).map
      CapturedImage.dataUrl = some demoRaster := by
  have h := annot_clear_roundtrip demoSessionState 0
    { width := 4, height := 4, bytes := "combined" }
    { dataUrl := demoRaster
      title := "Crack on floor"
      annot := none
      originalDataUrl := none } rfl rfl
  exact h.1

/-! ### Deleting an image (claim C8)

deleteImage in src/app/audit/page.tsx lines 693-703: splice the element out
and fix the annotation target: equal index clears it, larger index shifts
down by one, smaller index is untouched. -/

/-- deleteImage (page.tsx lines 693-703). -/
def deleteImage (s : AuditState) (index : Nat) : AuditState :=
  { s with
    capturedImages := s.capturedImages.eraseIdx index
    currentImageIndex :=
      match s.currentImageIndex with
      | none => none
      | some c =>
        if c = index then none
        else if c > index then some (c - 1)
        else some c }

theorem eraseIdx_get_lt (i j : Nat) (hji : j < i) :
    ∀ l : List CapturedImage, (l.eraseIdx i)[j]? = l[j]? := by
  induction j generalizing i with
  | zero =>
    intro l
    cases l with
    | nil => simp
    | cons x xs =>
      cases i with
      | zero => omega
      | succ n => simp [List.eraseIdx]
  | succ m ih =>
    intro l
    cases l with
    | nil => simp
    | cons x xs =>
      cases i with
      | zero => omega
      | succ n =>
        have := ih n (by omega) xs
        simpa [List.eraseIdx] using this

theorem eraseIdx_get_ge (i j : Nat) (hij : i ≤ j) :
    ∀ l : List CapturedImage, (l.eraseIdx i)[j]? = l[j + 1]? := by
  induction i generalizing j with
  | zero =>
    intro l
    cases l with
    | nil => simp
    | cons x xs => simp [List.eraseIdx]
  | succ n ih =>
    intro l
    cases l with
    | nil => simp
    | cons x xs =>
      cases j with
      | zero => omega
      | succ m =>
        have := ih m (by omega) xs
        simpa [List.eraseIdx] using this

/-- Claim C8: deleting a valid index removes exactly that element (the item
previously at j + 1 becomes the item at j for j at or past the deleted
index, earlier items are untouched, the length drops by one) and the
annotation target never ends up at or past the new length. -/
theorem deleteImage_reindex (s : AuditState) (i : Nat)
    (hi : i < s.capturedImages.length)
    (hcur : ∀ c, s.currentImageIndex = some c → c < s.capturedImages.length) :
    (deleteImage s i).capturedImages.length = s.capturedImages.length - 1
    ∧ (∀ j, j < i →
        (deleteImage s i).capturedImages[j]? = s.capturedImages[j]?)
    ∧ (∀ j, i ≤ j →
        (deleteImage s i).capturedImages[j]? = s.capturedImages[j + 1]?)
    ∧ (∀ c, (deleteImage s i).currentImageIndex = some c →
        c < (deleteImage s i).capturedImages.length) := by
  have hlen : (s.capturedImages.eraseIdx i).length = s.capturedImages.length - 1 :=
    List.length_eraseIdx_of_lt hi
  refine ⟨hlen, ?_, ?_, ?_⟩
  · intro j hj
    exact eraseIdx_get_lt i j hj s.capturedImages
  · intro j hj
    exact eraseIdx_get_ge i j hj s.capturedImages
  · intro c hc
    simp only [deleteImage] at hc ⊢
    rw [hlen]
    cases hcc : s.currentImageIndex with
    | none => simp [hcc] at hc
    | some c0 =>
      have hb := hcur c0 hcc
      simp only [hcc] at hc
      by_cases h1 : c0 = i
      · simp [h1] at hc
      · by_cases h2 : c0 > i
        · simp [h1, h2] at hc
          omega
        · simp [h1, h2] at hc
          omega

/-- A two-image session whose annotation target is the second image. -/
def demoTwoImageState : AuditState :=
  { capturedImages :=
      [{ dataUrl := demoRaster
         title := "First"
         annot := none
         originalDataUrl := none },
       { dataUrl := { width := 8, height := 8, bytes := "png-two" }
         title := "Second"
         annot := none
         originalDataUrl := none }]
    currentTitle := ""
    userName := "Alice"
    currentDate := "2026-10-11"
    signature := none
    isDrawing := false
    showPdfForm := false
    currentImageIndex := some 1 }

/-- Claim C8, witness: deleting index 0 of a two-image session while the
annotation target is 1 shifts the survivor to index 0 and the target to 0. -/
theorem deleteImage_reindex_witness :
    (deleteImage demoTwoImageState 0).capturedImages.length = 1
    ∧ (deleteImage demoTwoImageState 0).capturedImages[0]?
      = demoTwoImageState.capturedImages[1]?
    ∧ (deleteImage demoTwoImageState 0).currentImageIndex = some 0 := by
  have h := deleteImage_reindex demoTwoImageState 0 (by decide)
    (by
      intro c hc
      have hc1 : 1 = c := by simpa [demoTwoImageState] using hc
      subst hc1
      decide)
  refine ⟨h.1, h.2.2.1 0 (by omega), rfl⟩

/-! ### PDF assembly (claims C2, C4, C10)

generatePDF in src/app/audit/page.tsx lines 572-626 (identical in
src/unnamed/part_003 lines 848-902): validate that userName, currentDate
and signature are set, else alert and return without a document; otherwise
lay out a header, then one title-plus-image block per captured image with a
page break before any block whose start cursor exceeds 230, then a dedicated
signature page, and reset the PDF form flag. -/

/-- One drawing command of the produced document: a text run or a placed
image, each at its page coordinates. -/
inductive PdfItem where
  | text (content : String) (x : Nat) (y : Nat)
  | image (data : Raster) (x : Nat) (y : Nat) (w : Nat) (h : Nat)
deriving DecidableEq, Repr

/-- A document under construction: the completed pages in order, plus the
page currently receiving items.  jsPDF starts with one (current) page. -/
structure PdfDoc where
  donePages : List (List PdfItem)
  current : List PdfItem
deriving DecidableEq, Repr

/-- pdf.text / pdf.addImage: append an item to the current page. -/
def PdfDoc.addItem (d : PdfDoc) (it : PdfItem) : PdfDoc :=
  { d with current := d.current ++ [it] }

/-- pdf.addPage: close the current page and start a fresh one. -/
def PdfDoc.addPage (d : PdfDoc) : PdfDoc :=
  { donePages := d.donePages ++ [d.current], current := [] }

/-- All pages of the document, in order. -/
def PdfDoc.pages (d : PdfDoc) : List (List PdfItem) :=
  d.donePages ++ [d.current]

/-- Number of pages of the document. -/
def PdfDoc.pageCount (d : PdfDoc) : Nat :=
  d.donePages.length + 1

/-- Every drawing command of the document, in order, page structure
forgotten. -/
def PdfDoc.allItems (d : PdfDoc) : List PdfItem :=
  d.donePages.flatten ++ d.current

/-- The document together with the vertical cursor yPosition. -/
structure PdfBuilder where
  doc : PdfDoc
  y : Nat
deriving DecidableEq, Repr

/-- The fixed near-bottom threshold of the page-break check
(if yPosition is greater than 230, add a page). -/
def pageBreakThreshold : Nat := 230

/-- Height consumed by one title-plus-image block: 10 for the title line
plus 110 for the image box. -/
def imageBlockHeight : Nat := 120

/-- One iteration of the image loop of generatePDF (page.tsx lines
594-613): break the page if the cursor passed the threshold, then place the
numbered title and, 10 units lower, the 170 x 100 image box, advancing the
cursor by 110. -/
def placeImage (b : PdfBuilder) (idx : Nat) (img : CapturedImage) : PdfBuilder :=
  let b1 : PdfBuilder :=
    if b.y > pageBreakThreshold then { doc := b.doc.addPage, y := 20 } else b
  let b2 : PdfBuilder :=
    { doc := b1.doc.addItem (PdfItem.text (toString (idx + 1) ++ ". " ++ img.title) 20 b1.y)
      y := b1.y + 10 }
  { doc := b2.doc.addItem (PdfItem.image img.dataUrl 20 b2.y 170 100)
    y := b2.y + 110 }

/-- The image loop itself, carrying the running index of the forEach. -/
def placeImages (b : PdfBuilder) (idx : Nat) : List CapturedImage → PdfBuilder
  | [] => b
  | img :: rest => placeImages (placeImage b idx img) (idx + 1) rest

/-- The header laid out before the loop (page.tsx lines 578-591): centered
report title at cursor 20, inspector line at 35, date line at 45, leaving
the cursor at 65. -/
def headerBuilder (s : AuditState) : PdfBuilder :=
  { doc := { donePages := []
             current := [ PdfItem.text "Site Audit Report" 105 20
                        , PdfItem.text ("Inspector: " ++ s.userName) 20 35
                        , PdfItem.text ("Date: " ++ s.currentDate) 20 45 ] }
    y := 65 }

/-- generatePDF (page.tsx lines 572-626): on missing inspector name, date
or signature it alerts and returns no document, leaving the state alone; on
success it returns the assembled document (header, image blocks, dedicated
signature page) and resets only the PDF form flag.  The localStorage tier is
not touched either way. -/
def generatePDF (s : AuditState) (store : LocalStore) :
    AuditState × LocalStore × Option PdfDoc :=
  if s.userName = "" ∨ s.currentDate = "" ∨ s.signature = none then
    (s, store, none)
  else
    let afterImages := placeImages (headerBuilder s) 0 s.capturedImages
    let sigRaster := s.signature.getD { width := 0, height := 0, bytes := "" }
    let finalDoc :=
      ((afterImages.doc.addPage).addItem (PdfItem.text "Signature:" 20 20)).addItem
        (PdfItem.image sigRaster 20 30 100 50)
    ({ s with showPdfForm := false }, store, some finalDoc)

/-- Claim C2: the export fails exactly when the inspector name, the date or
the signature is absent, and then no document at all is produced; with all
three present a document is produced. -/
theorem generatePDF_validation (s : AuditState) (store : LocalStore) :
    ((generatePDF s store).2.2 = none
      ↔ (s.userName = "" ∨ s.currentDate = "" ∨ s.signature = none))
    ∧ ((s.userName ≠ "" ∧ s.currentDate ≠ "" ∧ s.signature ≠ none)
      → (generatePDF s store).2.2.isSome) := by
  by_cases h : s.userName = "" ∨ s.currentDate = "" ∨ s.signature = none
  · refine ⟨by simp [generatePDF, h], ?_⟩
    intro hall
    rcases h with h | h | h
    · exact absurd h hall.1
    · exact absurd h hall.2.1
    · exact absurd h hall.2.2
  · refine ⟨by simp [generatePDF, h], ?_⟩
    intro _
    simp [generatePDF, h]

/-- Claim C10: a successful export leaves the whole session and every
persisted key unchanged; only the PDF form flag is reset. -/
theorem generatePDF_frame (s : AuditState) (store : LocalStore)
    (h : (generatePDF s store).2.2.isSome) :
    (generatePDF s store).1 = { s with showPdfForm := false }
    ∧ (generatePDF s store).1.capturedImages = s.capturedImages
    ∧ (generatePDF s store).1.userName = s.userName
    ∧ (generatePDF s store).1.currentDate = s.currentDate
    ∧ (generatePDF s store).1.signature = s.signature
    ∧ (generatePDF s store).1.currentImageIndex = s.currentImageIndex
    ∧ (generatePDF s store).1.showPdfForm = false
    ∧ (generatePDF s store).2.1 = store := by
  by_cases hv : s.userName = "" ∨ s.currentDate = "" ∨ s.signature = none
  · simp [generatePDF, hv] at h
  · simp [generatePDF, hv]

/-- A fully valid three-image session, for the C4 counterexample and the
C4 and C10 witnesses. -/
def demoThreeImageState : AuditState :=
  { capturedImages :=
      [{ dataUrl := demoRaster, title := "One", annot := none, originalDataUrl := none },
       { dataUrl := demoRaster, title := "Two", annot := none, originalDataUrl := none },
       { dataUrl := demoRaster, title := "Three", annot := none, originalDataUrl := none }]
    currentTitle := ""
    userName := "Alice"
    currentDate := "2026-10-11"
    signature := some demoRaster
    isDrawing := false
    showPdfForm := true
    currentImageIndex := none }

/-- Claim C10, witness: the successful export of the three-image session
keeps the captured list and resets the form flag. -/
theorem generatePDF_frame_witness :
    (generatePDF demoThreeImageState demoStaleStore).1.capturedImages
      = demoThreeImageState.capturedImages
    ∧ (generatePDF demoThreeImageState demoStaleStore).1.showPdfForm = false := by
  have h := generatePDF_frame demoThreeImageState demoStaleStore (by decide)
  exact ⟨h.2.1, h.2.2.2.2.2.2.1⟩

/-! ### Pagination analysis (claim C4)

The cursor and the page count after each image block follow a simple
recurrence: the cursor resets to 20 on a break and always advances by one
block height; the page count grows exactly on a break. -/

/-- Cursor after one block, starting from cursor y. -/
def stepY (y : Nat) : Nat :=
  (if y > pageBreakThreshold then 20 else y) + imageBlockHeight

/-- Completed-page count after one block, starting from p pages and
cursor y. -/
def stepPages (p y : Nat) : Nat :=
  if y > pageBreakThreshold then p + 1 else p

/-- Cursor after n blocks. -/
def runY (y : Nat) : Nat → Nat
  | 0 => y
  | n + 1 => runY (stepY y) n

/-- Completed-page count after n blocks. -/
def runPages (p y : Nat) : Nat → Nat
  | 0 => p
  | n + 1 => runPages (stepPages p y) (stepY y) n

theorem placeImage_y (b : PdfBuilder) (idx : Nat) (img : CapturedImage) :
    (placeImage b idx img).y = stepY b.y := by
  by_cases h : b.y > pageBreakThreshold <;>
    simp [placeImage, stepY, h, imageBlockHeight]

theorem placeImage_donePages_length (b : PdfBuilder) (idx : Nat)
    (img : CapturedImage) :
    (placeImage b idx img).doc.donePages.length
      = stepPages b.doc.donePages.length b.y := by
  by_cases h : b.y > pageBreakThreshold <;>
    simp [placeImage, stepPages, PdfDoc.addPage, PdfDoc.addItem, h]

theorem placeImages_spec :
    ∀ (l : List CapturedImage) (b : PdfBuilder) (idx : Nat),
      (placeImages b idx l).doc.donePages.length
        = runPages b.doc.donePages.length b.y l.length
      ∧ (placeImages b idx l).y = runY b.y l.length
  | [], b, idx => ⟨rfl, rfl⟩
  | img :: rest, b, idx => by
    have ih := placeImages_spec rest (placeImage b idx img) (idx + 1)
    constructor
    · have e : placeImages b idx (img :: rest)
          = placeImages (placeImage b idx img) (idx + 1) rest := rfl
      rw [e, ih.1, placeImage_donePages_length, placeImage_y]
      rfl
    · have e : placeImages b idx (img :: rest)
          = placeImages (placeImage b idx img) (idx + 1) rest := rfl
      rw [e, ih.2, placeImage_y]
      rfl

theorem runPages_from_140 :
    ∀ (n p : Nat), runPages p 140 n = p + n / 2
  | 0, p => by simp [runPages]
  | 1, p => by norm_num [runPages, stepPages, stepY, pageBreakThreshold, imageBlockHeight]
  | n + 2, p => by
    have h := runPages_from_140 n (p + 1)
    have e : runPages p 140 (n + 2) = runPages (p + 1) 140 n := by
      norm_num [runPages, stepPages, stepY, pageBreakThreshold, imageBlockHeight]
    rw [e, h]
    omega

theorem runPages_from_65 (n p : Nat) :
    runPages p 65 n = p + (n - 1) / 2 := by
  match n with
  | 0 => simp [runPages]
  | 1 => norm_num [runPages, stepPages, stepY, pageBreakThreshold, imageBlockHeight]
  | 2 => norm_num [runPages, stepPages, stepY, pageBreakThreshold, imageBlockHeight]
  | m + 3 =>
    have e : runPages p 65 (m + 3) = runPages (p + 1) 140 m := by
      norm_num [runPages, stepPages, stepY, pageBreakThreshold, imageBlockHeight]
    rw [e, runPages_from_140]
    omega

/-- The cursor values reachable at the start of an image-loop iteration. -/
def okY (y : Nat) : Prop :=
  y = 65 ∨ y = 185 ∨ y = 305 ∨ y = 20 ∨ y = 140 ∨ y = 260

/-- A drawing command lies within the 297-unit A4 page height: text baseline
in range, image box bottom on the page. -/
def itemFits : PdfItem → Prop
  | PdfItem.text _ _ y => y ≤ 290
  | PdfItem.image _ _ y _ h => y + h ≤ 297

/-- Every command of the document so far fits and the cursor is one of the
reachable values. -/
def builderFits (b : PdfBuilder) : Prop :=
  (∀ it ∈ PdfDoc.allItems b.doc, itemFits it) ∧ okY b.y

theorem allItems_addItem (d : PdfDoc) (it : PdfItem) :
    PdfDoc.allItems (d.addItem it) = PdfDoc.allItems d ++ [it] := by
  simp [PdfDoc.addItem, PdfDoc.allItems]

theorem allItems_addPage (d : PdfDoc) :
    PdfDoc.allItems d.addPage = PdfDoc.allItems d := by
  simp [PdfDoc.addPage, PdfDoc.allItems]

theorem placeImage_fits (b : PdfBuilder) (idx : Nat) (img : CapturedImage)
    (h : builderFits b) : builderFits (placeImage b idx img) := by
  obtain ⟨hitems, hy⟩ := h
  have hstart : (if b.y > pageBreakThreshold then 20 else b.y) ≤ 185 := by
    rcases hy with h | h | h | h | h | h <;>
      simp [h, pageBreakThreshold]
  constructor
  · intro it hit
    by_cases hb : b.y > pageBreakThreshold
    · simp only [placeImage, if_pos hb, allItems_addItem, allItems_addPage] at hit
      rw [List.mem_append, List.mem_append] at hit
      rcases hit with (hold | hnew) | hnew
      · exact hitems it hold
      · rcases List.mem_singleton.mp hnew with rfl
        simp [itemFits]
      · rcases List.mem_singleton.mp hnew with rfl
        simp [itemFits]
    · have hstart2 : b.y ≤ 185 := by rwa [if_neg hb] at hstart
      simp only [placeImage, if_neg hb, allItems_addItem] at hit
      rw [List.mem_append, List.mem_append] at hit
      rcases hit with (hold | hnew) | hnew
      · exact hitems it hold
      · rcases List.mem_singleton.mp hnew with rfl
        simp only [itemFits]
        omega
      · rcases List.mem_singleton.mp hnew with rfl
        simp only [itemFits]
        omega
  · rw [placeImage_y]
    rcases hy with h | h | h | h | h | h <;>
      simp [h, stepY, pageBreakThreshold, imageBlockHeight, okY]

theorem placeImages_fits :
    ∀ (l : List CapturedImage) (b : PdfBuilder) (idx : Nat),
      builderFits b → builderFits (placeImages b idx l)
  | [], _, _, h => h
  | img :: rest, b, idx, h =>
    placeImages_fits rest (placeImage b idx img) (idx + 1)
      (placeImage_fits b idx img h)

/-- Claim C4, counterexample: three images have cumulative block height
3 * 120 = 360, which exceeds a page capacity of 230 (the break threshold)
and of 297 (the page height); the claimed page count is then
ceil(360 / 230) = 2 (and ceil(360 / 297) = 2), but the export of the valid
three-image session has 3 pages. -/
theorem generatePDF_pageCount_cex :
    ((generatePDF demoThreeImageState demoStaleStore).2.2.map PdfDoc.pageCount)
      = some 3
    ∧ (demoThreeImageState.capturedImages.length * imageBlockHeight
        + (pageBreakThreshold - 1)) / pageBreakThreshold = 2
    ∧ (demoThreeImageState.capturedImages.length * imageBlockHeight + 296) / 297
      = 2 := by
  exact ⟨rfl, rfl, rfl⟩

/-- Claim C4, amended: a new page starts before placing a title/image block
exactly when the cursor exceeds the fixed threshold 230; the title and the
image raster of a block are always placed adjacently on the same page, and
every placed command fits within the 297-unit page height, so no block is
split across pages; and a valid session with N images yields
(N - 1) / 2 + 2 pages: two blocks fit per page, so the image content spans
ceiling(N / 2) pages (the first shared with the header), followed by the
dedicated signature page. -/
theorem generatePDF_pagination (s : AuditState) (store : LocalStore)
    (h1 : s.userName ≠ "") (h2 : s.currentDate ≠ "") (h3 : s.signature ≠ none) :
    ∃ d, (generatePDF s store).2.2 = some d
      ∧ d.pageCount = (s.capturedImages.length - 1) / 2 + 2
      ∧ (∀ it ∈ PdfDoc.allItems d, itemFits it)
      ∧ (∀ (b : PdfBuilder) (idx : Nat) (img : CapturedImage),
          (placeImage b idx img).doc.donePages.length
            = (if b.y > pageBreakThreshold then b.doc.donePages.length + 1
               else b.doc.donePages.length)
          ∧ (placeImage b idx img).doc.current
            = (if b.y > pageBreakThreshold then ([] : List PdfItem) else b.doc.current)
              ++ [ PdfItem.text (toString (idx + 1) ++ ". " ++ img.title) 20
                     (if b.y > pageBreakThreshold then 20 else b.y)
                 , PdfItem.image img.dataUrl 20
                     ((if b.y > pageBreakThreshold then 20 else b.y) + 10) 170 100 ]) := by
  have hv : ¬(s.userName = "" ∨ s.currentDate = "" ∨ s.signature = none) := by
    rintro (h | h | h)
    exacts [h1 h, h2 h, h3 h]
  have hgen : (generatePDF s store).2.2
      = some ((((placeImages (headerBuilder s) 0 s.capturedImages).doc.addPage).addItem
          (PdfItem.text "Signature:" 20 20)).addItem
          (PdfItem.image (s.signature.getD { width := 0, height := 0, bytes := "" })
            20 30 100 50)) := by
    simp [generatePDF, hv]
  refine ⟨_, hgen, ?_, ?_, ?_⟩
  · have hspec := (placeImages_spec s.capturedImages (headerBuilder s) 0).1
    have hhdr : (headerBuilder s).doc.donePages.length = 0 := rfl
    have hy : (headerBuilder s).y = 65 := rfl
    rw [hhdr, hy, runPages_from_65] at hspec
    simp only [PdfDoc.pageCount, PdfDoc.addItem, PdfDoc.addPage, List.length_append,
      List.length_singleton]
    omega
  · have hhdr : builderFits (headerBuilder s) := by
      constructor
      · intro it hit
        simp only [headerBuilder, PdfDoc.allItems, List.flatten_nil, List.nil_append,
          List.mem_cons, List.not_mem_nil, or_false] at hit
        rcases hit with rfl | rfl | rfl
        · simp [itemFits]
        · simp [itemFits]
        · simp [itemFits]
      · exact Or.inl rfl
    have hfits := placeImages_fits s.capturedImages (headerBuilder s) 0 hhdr
    intro it hit
    rw [allItems_addItem, allItems_addItem, allItems_addPage] at hit
    rw [List.mem_append, List.mem_append] at hit
    rcases hit with (hold | hnew) | hnew
    · exact hfits.1 it hold
    · rcases List.mem_singleton.mp hnew with rfl
      simp [itemFits]
    · rcases List.mem_singleton.mp hnew with rfl
      simp [itemFits]
  · intro b idx img
    by_cases hb : b.y > pageBreakThreshold
    · constructor
      · rw [placeImage_donePages_length]
        simp [stepPages, hb]
      · simp [placeImage, hb, PdfDoc.addPage, PdfDoc.addItem]
    · constructor
      · rw [placeImage_donePages_length]
        simp [stepPages, hb]
      · simp [placeImage, hb, PdfDoc.addItem]

/-- Claim C4 amended, witness: the three-image export exists and has
3 pages. -/
theorem generatePDF_pagination_witness :
    ∃ d, (generatePDF demoThreeImageState demoStaleStore).2.2 = some d
      ∧ d.pageCount = 3 := by
  obtain ⟨d, hd, hc, -, -⟩ := generatePDF_pagination demoThreeImageState
    demoStaleStore (by decide) (by decide) (by decide)
  exact ⟨d, hd, by rw [hc]; rfl⟩

end SiteAudit
